import Mathlib

/-!
Verification of the eppendorf tube-sorter repository.

The embedding below translates the repository's Python sources into Lean:

* `src/eppendorf_sorter/domain/racks.py` — tube data model, source pallets,
  destination racks and the `RackSystemManager`;
* `src/eppendorf_sorter/orchestration/robot_logic.py` — the register
  handshake flows (`_scan_position_group`, `_execute_sorting_iteration`,
  `_exit_waiting_mode`);
* `src/eppendorf_sorter/orchestration/robot_protocol.py` — register numbers
  and register values.

Python objects are mutable and shared by reference: a `TubeInfo` object sits
in a source pallet's list and, after placement, also in a destination rack's
list, and mutations through one alias are visible through the other.  The
embedding therefore keeps all tube objects in an explicit heap (`TubeStore`,
a list indexed by tube id) and racks hold tube ids, exactly mirroring the
reference structure of the Python program.  Locks are erased in the main
embedding (the code is driven by a single coordination thread); a second,
lock-aware embedding of the two `SourceRack` methods that re-acquire their
own non-reentrant `threading.Lock` is given further below (`...Lk`
definitions), where `none` models a call that blocks forever.
-/

namespace EppendorfSorter

/-- racks.py 17-24: class TestType(Enum). -/
inductive TestType where
  | UGI
  | VPCH
  | UGI_VPCH
  | OTHER
  | ERROR
  | UNKNOWN
deriving DecidableEq, Repr, Inhabited

/-- racks.py 44-58: class TubeInfo — barcode, source rack, slot number,
test type, and the nullable destination fields set on placement. -/
structure TubeInfo where
  barcode : String
  source_rack : Nat
  number : Nat
  test_type : TestType
  destination_rack : Option Nat
  destination_number : Option Nat
deriving DecidableEq, Repr, Inhabited

/-- The heap of Python `TubeInfo` objects; racks reference tube objects by
their index (tube id, a plain Nat) in this heap. -/
abbrev TubeStore := List TubeInfo

/-- Dereference a tube id in the heap. -/
def tubeAt (store : TubeStore) (tid : Nat) : TubeInfo :=
  store.getD tid default

/-- racks.py 127: BaseRack.MAX_TUBES = 50. -/
def MAX_TUBES : Nat := 50

/-- racks.py 188-194: BaseRack.get_tube_by_barcode — linear scan of the
rack's tube list for the first tube with the given barcode. -/
def get_tube_by_barcode (store : TubeStore) (tubes : List Nat)
    (barcode : String) : Option Nat :=
  tubes.find? (fun tid => (tubeAt store tid).barcode == barcode)

/-- racks.py 196-198: BaseRack.has_barcode. -/
def has_barcode (store : TubeStore) (tubes : List Nat)
    (barcode : String) : Bool :=
  (get_tube_by_barcode store tubes barcode).isSome

/-- racks.py 224-236: class SourceRack — pallet id, scanned tube list and
the `_sorted_count` counter.  The occupancy flag is not needed by any
claim and is omitted. -/
structure SourceRack where
  rack_id : Nat
  tubes : List Nat
  sorted_count : Nat
deriving DecidableEq, Repr, Inhabited

/-- racks.py 230-236: SourceRack.__init__. -/
def SourceRack.init (pallet_id : Nat) : SourceRack :=
  ⟨pallet_id, [], 0⟩

/-- racks.py 240-252: SourceRack.add_scanned_tube (lock erased).  Raises
ValueError when the tube belongs to another pallet; silently returns,
leaving the rack unchanged, when the barcode is already present;
otherwise appends. -/
def SourceRack.add_scanned_tube (store : TubeStore) (r : SourceRack)
    (tid : Nat) : Except String SourceRack :=
  let tube := tubeAt store tid
  if tube.source_rack ≠ r.rack_id then
    .error "tube belongs to another pallet"
  else if has_barcode store r.tubes tube.barcode then
    .ok r
  else
    .ok { r with tubes := r.tubes ++ [tid] }

/-- racks.py 259-273: SourceRack.mark_tube_sorted (lock erased).  Looks the
barcode up in the rack; returns false when absent or when the tube's
destination_rack is already set; otherwise increments `_sorted_count`
and returns true.  Note the method never writes the tube's destination
fields itself. -/
def SourceRack.mark_tube_sorted (store : TubeStore) (r : SourceRack)
    (barcode : String) : SourceRack × Bool :=
  match get_tube_by_barcode store r.tubes barcode with
  | none => (r, false)
  | some tid =>
    if (tubeAt store tid).destination_rack ≠ none then
      (r, false)
    else
      ({ r with sorted_count := r.sorted_count + 1 }, true)

/-- racks.py 348-354: SourceRack.reset. -/
def SourceRack.reset (r : SourceRack) : SourceRack :=
  { r with tubes := [], sorted_count := 0 }

/-- racks.py 366-382: class DestinationRack — rack id, its test type, the
target count and the `_next_number` slot cursor. -/
structure DestinationRack where
  rack_id : Nat
  test_type : TestType
  target : Nat
  tubes : List Nat
  next_number : Nat
deriving DecidableEq, Repr, Inhabited

/-- racks.py 372-382: DestinationRack.__init__. -/
def DestinationRack.init (rack_id : Nat) (test_type : TestType)
    (target : Nat) : DestinationRack :=
  ⟨rack_id, test_type, target, [], 0⟩

/-- racks.py 207-210: BaseRack.is_full (len(self.tubes) >= MAX_TUBES). -/
def DestinationRack.is_full (r : DestinationRack) : Bool :=
  r.tubes.length ≥ MAX_TUBES

/-- racks.py 418-421: DestinationRack.reached_target. -/
def DestinationRack.reached_target (r : DestinationRack) : Bool :=
  r.tubes.length ≥ r.target

/-- racks.py 386-401: DestinationRack.add_tube.  Raises ValueError when the
rack is physically full; otherwise sets the tube object's destination
fields (unconditionally — there is no already-placed guard), appends the
tube and advances the cursor. -/
def DestinationRack.add_tube (store : TubeStore) (r : DestinationRack)
    (tid : Nat) : Except String (TubeStore × DestinationRack) :=
  if r.tubes.length ≥ MAX_TUBES then
    .error "rack is full"
  else
    let tube := tubeAt store tid
    let tube' := { tube with
      destination_rack := some r.rack_id,
      destination_number := some r.next_number }
    .ok (store.set tid tube',
      { r with tubes := r.tubes ++ [tid], next_number := r.next_number + 1 })

/-- racks.py 436-442: DestinationRack.set_target — raises ValueError unless
0 <= target <= MAX_TUBES (the lower bound is automatic on Nat). -/
def DestinationRack.set_target (r : DestinationRack) (target : Nat) :
    Except String DestinationRack :=
  if target ≤ MAX_TUBES then
    .ok { r with target := target }
  else
    .error "target out of range"

/-- racks.py 444-450: DestinationRack.reset — clears the tube list and the
slot cursor. -/
def DestinationRack.reset (r : DestinationRack) : DestinationRack :=
  { r with tubes := [], next_number := 0 }

/-- Modelled from the spec: DestinationRack.get_next_position is called by
the sort flow (robot_logic.py line 367 and operator_input.py line 274) but
is not defined anywhere under src/.  Per the spec, the rack keeps "a
monotonically increasing next-free-slot cursor" and the end-to-end scenario
requires the payload's destination slot to equal that cursor (count 10 gives
slot 10), so get_next_position returns the next-free-slot cursor. -/
def DestinationRack.get_next_position (r : DestinationRack) : Nat :=
  r.next_number

/-- racks.py 454-470: class RackSystemManager.  The Python manager keeps two
dicts keyed by rack id; a Python dict is insertion-ordered, so both
collections are embedded as lists in insertion order (lookup finds the
entry whose rack_id matches).  The `store` field is the process heap of
tube objects shared between the racks. -/
structure RackSystemManager where
  store : TubeStore
  source_pallets : List SourceRack
  destination_racks : List DestinationRack
deriving DecidableEq, Repr, Inhabited

/-- racks.py 514-517: RackSystemManager.get_source_pallet. -/
def RackSystemManager.get_source_pallet (m : RackSystemManager)
    (pallet_id : Nat) : Option SourceRack :=
  m.source_pallets.find? (fun p => p.rack_id == pallet_id)

/-- racks.py 526-529: RackSystemManager.get_destination_rack. -/
def RackSystemManager.get_destination_rack (m : RackSystemManager)
    (rack_id : Nat) : Option DestinationRack :=
  m.destination_racks.find? (fun r => r.rack_id == rack_id)

/-- The Python manager mutates the looked-up pallet object in place; the
dict (keyed by the unique rack_id) then holds the mutated object.  Here the
entry with that id is replaced by the new value. -/
def RackSystemManager.setPallet (m : RackSystemManager) (pallet_id : Nat)
    (p' : SourceRack) : RackSystemManager :=
  { m with source_pallets :=
      m.source_pallets.map (fun q => if q.rack_id == pallet_id then p' else q) }

/-- In-place mutation of the destination rack with the given id. -/
def RackSystemManager.setRack (m : RackSystemManager) (rack_id : Nat)
    (r' : DestinationRack) : RackSystemManager :=
  { m with destination_racks :=
      m.destination_racks.map (fun q => if q.rack_id == rack_id then r' else q) }

/-- racks.py 543-556: RackSystemManager.add_scanned_tube — false when the
pallet id is unknown; delegates to SourceRack.add_scanned_tube, converting
its ValueError into false and a normal return (including the silent
duplicate return) into true. -/
def RackSystemManager.add_scanned_tube (m : RackSystemManager)
    (pallet_id : Nat) (tid : Nat) : RackSystemManager × Bool :=
  match m.get_source_pallet pallet_id with
  | none => (m, false)
  | some pallet =>
    match pallet.add_scanned_tube m.store tid with
    | .ok pallet' => (m.setPallet pallet_id pallet', true)
    | .error _ => (m, false)

/-- racks.py 566-570: RackSystemManager.mark_tube_sorted — false when the
pallet id is unknown, otherwise delegates to SourceRack.mark_tube_sorted. -/
def RackSystemManager.mark_tube_sorted (m : RackSystemManager)
    (pallet_id : Nat) (barcode : String) : RackSystemManager × Bool :=
  match m.get_source_pallet pallet_id with
  | none => (m, false)
  | some pallet =>
    let (pallet', ok) := pallet.mark_tube_sorted m.store barcode
    (m.setPallet pallet_id pallet', ok)

/-- racks.py 574-588: RackSystemManager.add_tube_to_rack — false when the
rack id is unknown; delegates to DestinationRack.add_tube, converting its
ValueError (rack full) into false. -/
def RackSystemManager.add_tube_to_rack (m : RackSystemManager)
    (rack_id : Nat) (tid : Nat) : RackSystemManager × Bool :=
  match m.get_destination_rack rack_id with
  | none => (m, false)
  | some rack =>
    match rack.add_tube m.store tid with
    | .ok (store', rack') =>
      ({ m.setRack rack_id rack' with store := store' }, true)
    | .error _ => (m, false)

/-- racks.py 637-655: RackSystemManager.find_available_rack.  Candidates are
the racks of the requested type that are not physically full (in dict
insertion order); the loop scans them sorted by rack_id and returns the
first that has not reached its target; if all reached target, the first
candidate in insertion order — `candidates[0]`, NOT the sorted list — is
returned. -/
def RackSystemManager.find_available_rack (m : RackSystemManager)
    (test_type : TestType) : Option DestinationRack :=
  let candidates := m.destination_racks.filter
    (fun r => r.test_type == test_type && !r.is_full)
  if candidates.isEmpty then
    none
  else
    match (candidates.insertionSort
        (fun a b => a.rack_id ≤ b.rack_id)).find?
        (fun r => !r.reached_target) with
    | some rack => some rack
    | none => candidates.head?

/-- racks.py 531-534: RackSystemManager.get_racks_by_type. -/
def RackSystemManager.get_racks_by_type (m : RackSystemManager)
    (test_type : TestType) : List DestinationRack :=
  m.destination_racks.filter (fun r => r.test_type == test_type)

/-- racks.py 699-714: RackSystemManager.check_pair_reached_target.  For
TestType.OTHER only the first rack of the type is consulted; for every
other type the predicate demands exactly two racks of the type, all of
which reached their target. -/
def RackSystemManager.check_pair_reached_target (m : RackSystemManager)
    (test_type : TestType) : Bool :=
  let type_racks := m.get_racks_by_type test_type
  if test_type == TestType.OTHER then
    match type_racks with
    | [] => false
    | r :: _ => r.reached_target
  else if type_racks.length ≠ 2 then
    false
  else
    type_racks.all (fun r => r.reached_target)

/-! ## Robot protocol constants

Source: src/eppendorf_sorter/orchestration/robot_protocol.py. -/

/-- robot_protocol.py 121-140: register numbers of the three control
number-registers (the informational registers are unused by the flows). -/
structure RobotNRNumbers where
  iteration_starter : Nat
  scan_status : Nat
  pause_status : Nat
deriving DecidableEq, Repr

/-- robot_protocol.py 207: NR = RobotNRNumbers(). -/
def NR : RobotNRNumbers := ⟨1, 2, 4⟩

/-- robot_protocol.py 143-163: values written to the number registers. -/
structure RobotNRValues where
  ready : Nat
  started : Nat
  completed : Nat
  scan_reset : Nat
  scan_good : Nat
  scan_bad : Nat
  pause_not_ready : Nat
  pause_ready : Nat
deriving DecidableEq, Repr

/-- robot_protocol.py 208: NR_VAL = RobotNRValues(). -/
def NR_VAL : RobotNRValues := ⟨0, 1, 2, 0, 1, 2, 0, 1⟩

/-- robot_protocol.py 166-177: string register numbers. -/
structure RobotSRNumbers where
  iteration_type : Nat
  movement_data : Nat
  scan_data : Nat
deriving DecidableEq, Repr

/-- robot_protocol.py 209: SR = RobotSRNumbers(). -/
def SR : RobotSRNumbers := ⟨1, 2, 3⟩

/-- robot_protocol.py 179-190: the iteration-type strings. -/
structure RobotSRValues where
  sorting : String
  scanning : String
  pause : String
  none : String
deriving DecidableEq, Repr

/-- robot_protocol.py 210: SR_VAL = RobotSRValues(). -/
def SR_VAL : RobotSRValues := ⟨"SORTING_ITERATION", "SCANNING_ITERATION", "PAUSE", "NONE"⟩

/-- One register write performed by the engine, in program order. -/
inductive RegWrite where
  | num (reg : Nat) (val : Nat)
  | str (reg : Nat) (val : String)
deriving DecidableEq, Repr

/-- Python f-string formatting "{n:02d}": two-digit zero padding. -/
def pad2 (n : Nat) : String :=
  if n < 10 then "0" ++ toString n else toString n

/-! ## Handshake flows

Source: src/eppendorf_sorter/orchestration/robot_logic.py.  Each bounded
register wait (`_wait_until`) is an input of the flow: the environment
records whether the awaited condition was observed before the deadline.
The flows return the inventory result together with the list of register
writes they perform, in program order. -/

/-- Outcome of the two register waits of `_execute_sorting_iteration`:
whether `_wait_robot_ready` saw READY in time, and whether the wait for
COMPLETED (robot_logic.py 394-397) saw it before its deadline. -/
structure SortEnv where
  robot_ready : Bool
  completed : Bool
deriving DecidableEq, Repr

/-- robot_logic.py 405-408: the inventory update of a successful sort
iteration — `dest_rack.add_tube(tube)` followed by
`rack_manager.mark_tube_sorted(tube.source_rack, tube.barcode)`.  The
ValueError of add_tube (rack full) would propagate out of the flow. -/
def sort_success_update (m : RackSystemManager) (rack : DestinationRack)
    (tid : Nat) : Except String RackSystemManager :=
  match rack.add_tube m.store tid with
  | .error e => .error e
  | .ok (store', rack') =>
    let tube := tubeAt m.store tid
    let m1 := { m.setRack rack.rack_id rack' with store := store' }
    .ok (m1.mark_tube_sorted tube.source_rack tube.barcode).1

/-- robot_logic.py 337-419: RobotThread._execute_sorting_iteration.
Resolves the destination via find_available_rack (failing without any
register write when none is available or when the robot never reports
READY), writes the movement payload and the sorting iteration type, and
on COMPLETED applies the inventory update and resets the registers; on
timeout it only resets the iteration type and reports failure.  The
result is `(manager, success, register writes)`; an uncaught ValueError
from add_tube is the `.error` case. -/
def execute_sorting_iteration (m : RackSystemManager) (env : SortEnv)
    (tid : Nat) : Except String (RackSystemManager × Bool × List RegWrite) :=
  let tube := tubeAt m.store tid
  match m.find_available_rack tube.test_type with
  | none => .ok (m, false, [])
  | some dest_rack =>
    let dest_rack_id := dest_rack.rack_id
    let dest_position := dest_rack.get_next_position
    if !env.robot_ready then
      .ok (m, false, [])
    else
      let data_str := pad2 tube.source_rack ++ " " ++ pad2 tube.number
        ++ " " ++ pad2 dest_rack_id ++ " " ++ pad2 dest_position
      let started : List RegWrite :=
        [.str SR.movement_data data_str, .str SR.iteration_type SR_VAL.sorting]
      if !env.completed then
        .ok (m, false, started ++ [.str SR.iteration_type SR_VAL.none])
      else
        match sort_success_update m dest_rack tid with
        | .error e => .error e
        | .ok m' =>
          .ok (m', true, started ++
            [.num NR.iteration_starter NR_VAL.ready,
             .str SR.iteration_type SR_VAL.none])

/-- Outcome of the waits of `_scan_position_group`, plus the tuple of
barcodes the scanner returned. -/
structure ScanEnv where
  robot_ready : Bool
  positioned : Bool
  barcodes : List String
  completed : Bool
deriving DecidableEq, Repr

/-- Python truthiness test `if barcode and barcode != "NoRead"`. -/
def validBarcode (b : String) : Bool :=
  !(b == "") && !(b == "NoRead")

/-- robot_logic.py 121-233: RobotThread._scan_position_group.  Returns the
TubeInfo objects created for the non-empty reads together with the
register writes.  Barcodes are paired with the group's positions in
order (`zip` truncates exactly like the `i >= group_size: break` loop);
the final register resets (including writing READY into the
iteration-starter register) happen whether or not COMPLETED was seen. -/
def scan_position_group (env : ScanEnv) (pallet_id row col_start col_end : Nat) :
    List TubeInfo × List RegWrite :=
  let positions := (List.range' col_start (col_end - col_start)).map
    (fun col => row * 5 + col)
  if !env.robot_ready then
    ([], [])
  else
    let first_position := positions.headD 0
    let scan_data := pad2 pallet_id ++ " " ++ pad2 first_position
    let started : List RegWrite :=
      [.str SR.scan_data scan_data, .str SR.iteration_type SR_VAL.scanning]
    if !env.positioned then
      ([], started ++ [.str SR.iteration_type SR_VAL.none])
    else
      let pairs := env.barcodes.zip positions
      let tubes := pairs.filterMap (fun bp =>
        if validBarcode bp.1 then
          some ⟨bp.1, pallet_id, bp.2, TestType.UNKNOWN, none, none⟩
        else none)
      let has_valid_barcode := pairs.any (fun bp => validBarcode bp.1)
      let status : RegWrite :=
        if has_valid_barcode then .num NR.scan_status NR_VAL.scan_good
        else .num NR.scan_status NR_VAL.scan_bad
      (tubes, started ++ [status] ++
        [.num NR.iteration_starter NR_VAL.ready,
         .num NR.scan_status NR_VAL.scan_reset,
         .str SR.iteration_type SR_VAL.none])

/-- robot_logic.py 539-565: RobotThread._exit_waiting_mode.  Clears the
pause status, waits for COMPLETED (the wait's outcome is only logged),
then resets the iteration-starter register to READY and the iteration
type to NONE unconditionally. -/
def exit_waiting_mode (completed : Bool) : List RegWrite :=
  let _ := completed
  [.num NR.pause_status NR_VAL.pause_not_ready,
   .num NR.iteration_starter NR_VAL.ready,
   .str SR.iteration_type SR_VAL.none]

/-! ## Lock-aware embedding of the SourceRack mutators

racks.py 129-133 creates `self._lock = threading.Lock()` — a NON-reentrant
lock — for every rack.  `SourceRack.add_scanned_tube` (240-252) and
`SourceRack.mark_tube_sorted` (259-273) enter `with self._lock:` and then,
still holding it, call `has_barcode` / `get_tube_by_barcode`, which
themselves do `with self._lock:` on the very same lock.  A thread that
acquires a held non-reentrant `threading.Lock` blocks forever; `none`
models such a call that never returns. -/

/-- racks.py 188-194 with the lock visible: `held` says whether the caller
already holds this rack's lock.  Acquiring it again never returns. -/
def get_tube_by_barcodeLk (held : Bool) (store : TubeStore)
    (tubes : List Nat) (barcode : String) : Option (Option Nat) :=
  if held then none
  else some (get_tube_by_barcode store tubes barcode)

/-- racks.py 196-198 with the lock visible. -/
def has_barcodeLk (held : Bool) (store : TubeStore) (tubes : List Nat)
    (barcode : String) : Option Bool :=
  (get_tube_by_barcodeLk held store tubes barcode).map Option.isSome

/-- racks.py 259-273: SourceRack.mark_tube_sorted with the lock visible.
The body runs holding the rack's lock, so its call to
get_tube_by_barcode re-acquires a held non-reentrant lock. -/
def SourceRack.mark_tube_sortedLk (store : TubeStore) (r : SourceRack)
    (barcode : String) : Option (SourceRack × Bool) :=
  match get_tube_by_barcodeLk true store r.tubes barcode with
  | none => none
  | some none => some (r, false)
  | some (some tid) =>
    if (tubeAt store tid).destination_rack ≠ none then
      some (r, false)
    else
      some ({ r with sorted_count := r.sorted_count + 1 }, true)

/-- racks.py 240-252: SourceRack.add_scanned_tube with the lock visible.
The ValueError for a foreign tube is raised before the nested lock
acquisition; the duplicate check calls has_barcode while holding the
lock. -/
def SourceRack.add_scanned_tubeLk (store : TubeStore) (r : SourceRack)
    (tid : Nat) : Option (Except String SourceRack) :=
  let tube := tubeAt store tid
  if tube.source_rack ≠ r.rack_id then
    some (.error "tube belongs to another pallet")
  else
    match has_barcodeLk true store r.tubes tube.barcode with
    | none => none
    | some true => some (.ok r)
    | some false => some (.ok { r with tubes := r.tubes ++ [tid] })

/-! ## Operation sequences on a destination rack

Used to state the DestinationRack invariants: any interleaving of the
mutators `add_tube`, `reset` and `set_target` applied to a freshly
constructed rack.  A Python call that raises (add to a full rack,
out-of-range target) leaves the rack unchanged — both methods raise before
mutating anything. -/

/-- One call to a DestinationRack mutator.  `addTube t` creates the tube
object `t` and calls rack.add_tube on it. -/
inductive DestOp where
  | addTube (t : TubeInfo)
  | reset
  | setTarget (n : Nat)
deriving DecidableEq, Repr

/-- Apply one mutator call to (heap, rack).  The new tube object is
allocated in the heap first (it exists whether or not add_tube raises);
a raising call leaves the rack unchanged. -/
def apply_dest_op (s : TubeStore × DestinationRack) (op : DestOp) :
    TubeStore × DestinationRack :=
  match op with
  | .addTube t =>
    let store1 := s.1 ++ [t]
    let tid := s.1.length
    match s.2.add_tube store1 tid with
    | .ok (store2, r') => (store2, r')
    | .error _ => (store1, s.2)
  | .reset => (s.1, s.2.reset)
  | .setTarget n =>
    match s.2.set_target n with
    | .ok r' => (s.1, r')
    | .error _ => (s.1, s.2)

/-- Run a sequence of mutator calls on a freshly constructed rack. -/
def run_dest_ops (rack_id : Nat) (tt : TestType) (target0 : Nat)
    (ops : List DestOp) : TubeStore × DestinationRack :=
  ops.foldl apply_dest_op ([], DestinationRack.init rack_id tt target0)

/-- The destination slot numbers of the rack's tubes, in rack order. -/
def destNumbers (store : TubeStore) (r : DestinationRack) : List (Option Nat) :=
  r.tubes.map (fun tid => (tubeAt store tid).destination_number)

/-- The DestinationRack invariant of the spec: count bounded by the hard
maximum, cursor equal to count, target within range, all tube ids valid,
and the assigned slots exactly 0,1,...,count-1 in order. -/
def DestInv (store : TubeStore) (r : DestinationRack) : Prop :=
  r.tubes.length ≤ MAX_TUBES ∧
  r.next_number = r.tubes.length ∧
  r.target ≤ MAX_TUBES ∧
  (∀ tid ∈ r.tubes, tid < store.length) ∧
  destNumbers store r = (List.range r.tubes.length).map some

/-! ## Concrete test fixtures used by the claim theorems -/

/-- An unplaced tube with barcode B1 in pallet 0, slot 0. -/
def tubeB1 : TubeInfo := ⟨"B1", 0, 0, .UGI, none, none⟩

/-- Pallet 0 holds tubeB1; one empty UGI rack with id 3. -/
def mC1 : RackSystemManager :=
  ⟨[tubeB1], [⟨0, [0], 0⟩], [⟨3, .UGI, 50, [], 0⟩]⟩

/-- An unplaced tube and two empty racks with ids 0 and 1. -/
def mC2 : RackSystemManager :=
  ⟨[⟨"T2", 0, 0, .UGI, none, none⟩], [],
   [⟨0, .UGI, 50, [], 0⟩, ⟨1, .UGI, 50, [], 0⟩]⟩

/-- Two same-type racks, ids 5 and 3 in insertion order, both with
target 10 already reached (count 40) and neither physically full. -/
def mC4 : RackSystemManager :=
  ⟨[], [],
   [⟨5, .UGI, 10, List.range 40, 40⟩, ⟨3, .UGI, 10, List.range 40, 40⟩]⟩

/-- Two racks of the combined type: rack 5 has reached its target
(count 10, target 10), rack 6 has not (count 0, target 50). -/
def mC5 : RackSystemManager :=
  ⟨[], [],
   [⟨5, .UGI_VPCH, 10, List.range 10, 10⟩, ⟨6, .UGI_VPCH, 50, [], 0⟩]⟩

/-- A pallet with one tube and an empty destination rack, for exercising
the sort flow's register writes. -/
def mC7 : RackSystemManager :=
  ⟨[⟨"B7", 0, 0, .UGI, none, none⟩], [⟨0, [0], 0⟩], [⟨2, .UGI, 50, [], 0⟩]⟩

/-- A scan-flow environment whose waits all succeed and whose scanner
returned three barcodes. -/
def scanEnvC7 : ScanEnv := ⟨true, true, ["A1", "A2", "A3"], true⟩

/-- The register writes of a fully successful sort iteration on mC7. -/
def sortWritesC7 : List RegWrite :=
  match execute_sorting_iteration mC7 ⟨true, true⟩ 0 with
  | .ok x => x.2.2
  | .error _ => []

/-- Pallet 0 already holds a tube with barcode B; tube id 1 is a second
tube object carrying the same barcode. -/
def mC9 : RackSystemManager :=
  ⟨[⟨"B", 0, 0, .UGI, none, none⟩, ⟨"B", 0, 1, .UGI, none, none⟩],
   [⟨0, [0], 0⟩], []⟩

/-- The end-to-end scenario of the spec: a TypeX tube in pallet 0 slot 5,
and a single rack of its type with id 3, count 10, cursor 10, target 50. -/
def mC10 : RackSystemManager :=
  ⟨⟨"T1", 0, 5, .UGI, none, none⟩ ::
     (List.range 10).map (fun i => ⟨"D", 0, i, .UGI, some 3, some i⟩),
   [⟨0, [0], 0⟩],
   [⟨3, .UGI, 50, (List.range 10).map (· + 1), 10⟩]⟩

/-- The result of the sort iteration of the end-to-end scenario. -/
def sortResultC10 : Except String (RackSystemManager × Bool × List RegWrite) :=
  execute_sorting_iteration mC10 ⟨true, true⟩ 0

/-- A manager whose destination racks are registered in ascending rack-id
order: rack 1 (target 10, count 12, reached) and rack 2 (empty). -/
def mC4w : RackSystemManager :=
  ⟨[], [], [⟨1, .UGI, 10, List.range 12, 12⟩, ⟨2, .UGI, 50, [], 0⟩]⟩

/-- Two racks of a single-test type, both at target. -/
def mC5w : RackSystemManager :=
  ⟨[], [], [⟨1, .UGI, 10, List.range 10, 10⟩, ⟨2, .UGI, 10, List.range 10, 10⟩]⟩

/-! ## Helper lemmas shared by the claim theorems -/

/-- In a list sorted by rack id, the head has the least rack id. -/
theorem sorted_head?_le {l : List DestinationRack}
    (hs : l.Sorted (fun a b => a.rack_id ≤ b.rack_id)) {r : DestinationRack}
    (h : l.head? = some r) : ∀ r' ∈ l, r.rack_id ≤ r'.rack_id := by
  cases l with
  | nil => cases h
  | cons a t =>
    obtain rfl : a = r := by simpa using h
    intro r' hr'
    rcases List.mem_cons.mp hr' with h1 | h2
    · exact h1 ▸ le_refl _
    · exact List.rel_of_sorted_cons hs _ h2

/-- In a list sorted by rack id, find? returns an element with the least
rack id among those satisfying the predicate. -/
theorem sorted_find?_le {l : List DestinationRack}
    (hs : l.Sorted (fun a b => a.rack_id ≤ b.rack_id))
    {p : DestinationRack → Bool} {r : DestinationRack}
    (h : l.find? p = some r) : ∀ r' ∈ l, p r' = true → r.rack_id ≤ r'.rack_id := by
  induction l with
  | nil => cases h
  | cons a t ih =>
    rw [List.find?_cons] at h
    cases hpa : p a with
    | true =>
      rw [hpa] at h
      obtain rfl : a = r := by simpa using h
      intro r' hr' _
      rcases List.mem_cons.mp hr' with h1 | h2
      · exact h1 ▸ le_refl _
      · exact List.rel_of_sorted_cons hs _ h2
    | false =>
      rw [hpa] at h
      intro r' hr' hp
      rcases List.mem_cons.mp hr' with h1 | h2
      · exact absurd (h1 ▸ hp) (by simp [hpa])
      · exact ih hs.of_cons h r' h2 hp

/-- A reset call preserves the DestinationRack invariant. -/
theorem dest_inv_reset (s : TubeStore × DestinationRack)
    (h : DestInv s.1 s.2) :
    DestInv (apply_dest_op s DestOp.reset).1 (apply_dest_op s DestOp.reset).2 := by
  obtain ⟨h1, h2, h3, h4, h5⟩ := h
  refine ⟨?_, ?_, ?_, ?_, ?_⟩ <;>
    simp [apply_dest_op, DestinationRack.reset, destNumbers, h3]

/-- A set_target call (validated or raising) preserves the invariant. -/
theorem dest_inv_set_target (s : TubeStore × DestinationRack) (n : Nat)
    (h : DestInv s.1 s.2) :
    DestInv (apply_dest_op s (DestOp.setTarget n)).1
      (apply_dest_op s (DestOp.setTarget n)).2 := by
  obtain ⟨h1, h2, h3, h4, h5⟩ := h
  by_cases hn : n ≤ MAX_TUBES
  · simp only [apply_dest_op, DestinationRack.set_target, if_pos hn]
    exact ⟨h1, h2, hn, h4, h5⟩
  · simp only [apply_dest_op, DestinationRack.set_target, if_neg hn]
    exact ⟨h1, h2, h3, h4, h5⟩

/-- An add_tube call on a physically full rack raises and preserves the
invariant (the heap gains the new tube object; the rack is unchanged). -/
theorem dest_inv_add_full (s : TubeStore × DestinationRack) (t : TubeInfo)
    (h : DestInv s.1 s.2) (hcap : s.2.tubes.length ≥ MAX_TUBES) :
    DestInv (apply_dest_op s (DestOp.addTube t)).1
      (apply_dest_op s (DestOp.addTube t)).2 := by
  obtain ⟨h1, h2, h3, h4, h5⟩ := h
  simp only [apply_dest_op, DestinationRack.add_tube, if_pos hcap]
  refine ⟨h1, h2, h3, ?_, ?_⟩
  · intro tid htid
    have hlt := h4 tid htid
    have hL : (s.1 ++ [t]).length = s.1.length + 1 := by
      simp only [List.length_append, List.length_singleton]
    omega
  · rw [destNumbers, ← h5, destNumbers]
    apply List.map_congr_left
    intro tid htid
    have hlt := h4 tid htid
    simp [tubeAt, List.getD_eq_getElem?_getD, List.getElem?_append_left hlt]

/-- An add_tube call on a non-full rack appends the tube at the cursor slot
and preserves the invariant. -/
theorem dest_inv_add_ok (s : TubeStore × DestinationRack) (t : TubeInfo)
    (h : DestInv s.1 s.2) (hcap : ¬ s.2.tubes.length ≥ MAX_TUBES) :
    DestInv (apply_dest_op s (DestOp.addTube t)).1
      (apply_dest_op s (DestOp.addTube t)).2 := by
  obtain ⟨h1, h2, h3, h4, h5⟩ := h
  simp only [apply_dest_op, DestinationRack.add_tube, if_neg hcap]
  have hL : (s.1 ++ [t]).length = s.1.length + 1 := by
    simp only [List.length_append, List.length_singleton]
  have htat : tubeAt (s.1 ++ [t]) s.1.length = t := by
    simp [tubeAt, List.getD_eq_getElem?_getD, List.getElem?_concat_length]
  refine ⟨?_, ?_, h3, ?_, ?_⟩
  · simp only [List.length_append, List.length_singleton]
    omega
  · simp only [List.length_append, List.length_singleton]
    omega
  · intro tid htid
    rcases List.mem_append.mp htid with hold | hnew
    · have := h4 tid hold
      simp only [List.length_set, hL]
      omega
    · simp only [List.mem_singleton] at hnew
      subst hnew
      simp only [List.length_set, hL]
      omega
  · rw [destNumbers, List.map_append]
    have hold : s.2.tubes.map (fun tid =>
        (tubeAt ((s.1 ++ [t]).set s.1.length
          { tubeAt (s.1 ++ [t]) s.1.length with
              destination_rack := some s.2.rack_id,
              destination_number := some s.2.next_number }) tid).destination_number)
        = (List.range s.2.tubes.length).map some := by
      rw [← h5]
      apply List.map_congr_left
      intro tid htid
      have hlt := h4 tid htid
      have hne : s.1.length ≠ tid := by omega
      simp [tubeAt, List.getD_eq_getElem?_getD, List.getElem?_set_ne hne,
        List.getElem?_append_left hlt]
    rw [hold]
    have hvals : (tubeAt ((s.1 ++ [t]).set s.1.length
        { tubeAt (s.1 ++ [t]) s.1.length with
            destination_rack := some s.2.rack_id,
            destination_number := some s.2.next_number }) s.1.length).destination_number
        = some s.2.tubes.length := by
      simp only [tubeAt, List.getD_eq_getElem?_getD,
        List.getElem?_set_self (show s.1.length < (s.1 ++ [t]).length by
          simp only [hL]; omega)]
      simp [h2]
    simp only [List.map_cons, List.map_nil, hvals, List.length_append,
      List.length_singleton]
    rw [List.range_succ, List.map_append]
    simp

/-- Every DestinationRack mutator call preserves the invariant. -/
theorem dest_inv_step (s : TubeStore × DestinationRack) (op : DestOp)
    (h : DestInv s.1 s.2) : DestInv (apply_dest_op s op).1 (apply_dest_op s op).2 := by
  cases op with
  | addTube t =>
    by_cases hcap : s.2.tubes.length ≥ MAX_TUBES
    · exact dest_inv_add_full s t h hcap
    · exact dest_inv_add_ok s t h hcap
  | reset => exact dest_inv_reset s h
  | setTarget n => exact dest_inv_set_target s n h

/-- The invariant holds after any sequence of mutator calls. -/
theorem dest_inv_run (ops : List DestOp) (s : TubeStore × DestinationRack)
    (h : DestInv s.1 s.2) :
    DestInv (ops.foldl apply_dest_op s).1 (ops.foldl apply_dest_op s).2 := by
  induction ops generalizing s with
  | nil => exact h
  | cons op rest ih => exact ih _ (dest_inv_step s op h)

/-- Replacing the found pallet by itself is the identity (the ids of the
registered pallets are distinct, as they are the keys of a Python dict). -/
theorem setPallet_found_self {l : List SourceRack} {pid : Nat} {p : SourceRack}
    (hnd : (l.map (fun q => q.rack_id)).Nodup)
    (hf : l.find? (fun q => q.rack_id == pid) = some p) :
    l.map (fun q => if q.rack_id == pid then p else q) = l := by
  have hp : p ∈ l := List.mem_of_find?_eq_some hf
  have hpid : p.rack_id = pid := by simpa using List.find?_some hf
  conv_rhs => rw [← List.map_id l]
  apply List.map_congr_left
  intro q hq
  by_cases hqid : q.rack_id = pid
  · have : q = p := List.inj_on_of_nodup_map hnd hq hp (by rw [hqid, hpid])
    simp [hqid, this]
  · simp [hqid]

/-! ## Claim theorems -/

/-- Claim C1 (code bug).  On pallet 0 holding the unplaced tube B1, the code
returns true from mark_tube_sorted TWICE in succession and the sorted
counter reaches 2 (the idempotency guard inspects destination_rack, which
mark_tube_sorted never sets); and in the sort flow, where add_tube runs
first, the subsequent mark_tube_sorted returns false and the counter stays
at 0 — the opposite of the claimed true-then-false with exactly one
increment and of the claimed success after add_tube_to_rack. -/
theorem mark_tube_sorted_guard_mismatch :
    (mC1.mark_tube_sorted 0 "B1").2 = true ∧
    ((mC1.mark_tube_sorted 0 "B1").1.mark_tube_sorted 0 "B1").2 = true ∧
    ((mC1.mark_tube_sorted 0 "B1").1.mark_tube_sorted 0 "B1").1.source_pallets.map
      (fun p => p.sorted_count) = [2] ∧
    (mC1.add_tube_to_rack 3 0).2 = true ∧
    ((mC1.add_tube_to_rack 3 0).1.mark_tube_sorted 0 "B1").2 = false ∧
    ((mC1.add_tube_to_rack 3 0).1.mark_tube_sorted 0 "B1").1.source_pallets.map
      (fun p => p.sorted_count) = [0] := by
  decide

/-- Claim C2 counterexample.  Placing the same tube object into rack 0 and
then into rack 1 is NOT rejected: the second add_tube_to_rack also reports
success and silently overwrites the tube's destination fields, so the
destination fields are not set at most once. -/
theorem second_placement_not_rejected :
    (mC2.add_tube_to_rack 0 0).2 = true ∧
    (tubeAt (mC2.add_tube_to_rack 0 0).1.store 0).destination_rack = some 0 ∧
    ((mC2.add_tube_to_rack 0 0).1.add_tube_to_rack 1 0).2 = true ∧
    (tubeAt ((mC2.add_tube_to_rack 0 0).1.add_tube_to_rack 1 0).1.store 0).destination_rack
      = some 1 := by
  decide

/-- Claim C2 (amended).  DestinationRack.add_tube succeeds on any non-full
rack whatever the tube's current destination fields — an already-placed
tube is accepted again — and unconditionally overwrites destination_rack
and destination_number with the new rack's id and cursor; only capacity is
checked.  All other heap entries (in particular the first rack's tubes)
are left unchanged. -/
theorem add_tube_overwrites_destination (store : TubeStore)
    (r : DestinationRack) (tid : Nat)
    (hcap : r.tubes.length < MAX_TUBES) (htid : tid < store.length) :
    ∃ store' r', DestinationRack.add_tube store r tid = .ok (store', r') ∧
      (tubeAt store' tid).destination_rack = some r.rack_id ∧
      (tubeAt store' tid).destination_number = some r.next_number ∧
      (∀ j, j ≠ tid → tubeAt store' j = tubeAt store j) ∧
      r'.tubes = r.tubes ++ [tid] ∧ r'.next_number = r.next_number + 1 := by
  have h : DestinationRack.add_tube store r tid =
      .ok (store.set tid { tubeAt store tid with
              destination_rack := some r.rack_id,
              destination_number := some r.next_number },
           { r with tubes := r.tubes ++ [tid], next_number := r.next_number + 1 }) := by
    rw [DestinationRack.add_tube, if_neg (by omega)]
  refine ⟨_, _, h, ?_, ?_, ?_, rfl, rfl⟩
  · simp [tubeAt, List.getD_eq_getElem?_getD, List.getElem?_set_self (by simpa using htid)]
  · simp [tubeAt, List.getD_eq_getElem?_getD, List.getElem?_set_self (by simpa using htid)]
  · intro j hj
    simp [tubeAt, List.getD_eq_getElem?_getD, List.getElem?_set_ne (Ne.symm hj)]

/-- Witness for the amended C2 theorem: a tube already placed at rack 9
slot 9 is accepted by rack 1 and its destination fields are overwritten. -/
theorem add_tube_overwrites_destination_witness :
    (DestinationRack.init 1 TestType.UGI 50).tubes.length < MAX_TUBES ∧
    0 < ([⟨"W2", 0, 0, .UGI, some 9, some 9⟩] : TubeStore).length ∧
    (∃ store' r',
      DestinationRack.add_tube [⟨"W2", 0, 0, .UGI, some 9, some 9⟩]
        (DestinationRack.init 1 TestType.UGI 50) 0 = .ok (store', r') ∧
      (tubeAt store' 0).destination_rack = some 1 ∧
      (tubeAt store' 0).destination_number = some 0 ∧
      (∀ j, j ≠ 0 → tubeAt store' j =
        tubeAt [⟨"W2", 0, 0, .UGI, some 9, some 9⟩] j) ∧
      r'.tubes = [0] ∧ r'.next_number = 1) :=
  ⟨by decide, by decide,
    add_tube_overwrites_destination [⟨"W2", 0, 0, .UGI, some 9, some 9⟩]
      (DestinationRack.init 1 TestType.UGI 50) 0 (by decide) (by decide)⟩

/-- Claim C3 (code bug).  Modelling the rack's non-reentrant threading.Lock
explicitly, SourceRack.mark_tube_sorted never returns (it re-acquires its
own held lock inside get_tube_by_barcode), and SourceRack.add_scanned_tube
never returns whenever the tube belongs to the pallet (the duplicate check
calls has_barcode while the lock is held); the claim that every call
terminates and returns is refuted by the code. -/
theorem source_rack_methods_self_deadlock :
    (∀ (store : TubeStore) (r : SourceRack) (barcode : String),
        SourceRack.mark_tube_sortedLk store r barcode = none) ∧
    (∀ (store : TubeStore) (r : SourceRack) (tid : Nat),
        (tubeAt store tid).source_rack = r.rack_id →
        SourceRack.add_scanned_tubeLk store r tid = none) := by
  constructor
  · intro store r barcode
    rfl
  · intro store r tid h
    simp [SourceRack.add_scanned_tubeLk, has_barcodeLk, get_tube_by_barcodeLk, h]

/-- Witness for C3: a concrete add_scanned_tube call that deadlocks. -/
theorem source_rack_methods_self_deadlock_witness :
    (tubeAt [] 0).source_rack = (SourceRack.init 0).rack_id ∧
    SourceRack.add_scanned_tubeLk [] (SourceRack.init 0) 0 = none :=
  ⟨rfl, source_rack_methods_self_deadlock.2 [] (SourceRack.init 0) 0 rfl⟩

/-- Claim C4 counterexample.  With two same-type racks registered in the
order id 5 then id 3, both non-full and both having reached their target,
find_available_rack returns rack 5 (the first REGISTERED candidate,
`candidates[0]`), not the lowest-id rack 3 — the ascending-id tie-break
does not hold in the all-reached-target tier. -/
theorem find_available_rack_not_lowest_id :
    ((mC4.find_available_rack TestType.UGI).map (fun r => r.rack_id)) = some 5 ∧
    (mC4.destination_racks.map (fun r => (r.rack_id, r.is_full, r.reached_target)))
      = [(5, false, true), (3, false, true)] := by
  decide

/-- Claim C4 (amended): provided the destination racks are registered in
ascending rack-id order (as bootstrap.py does), find_available_rack returns
none exactly when every rack of the type is physically full; otherwise it
returns a non-full rack of the type — never one at the hard maximum — that
is under-target with the least rack id among under-target candidates
whenever any exists, and otherwise (once it has reached target) has the
least rack id among all non-full racks of the type. -/
theorem find_available_rack_ordered_spec (m : RackSystemManager) (tt : TestType)
    (hs : m.destination_racks.Sorted (fun a b => a.rack_id ≤ b.rack_id)) :
    (m.find_available_rack tt = none ↔
        ∀ r ∈ m.destination_racks, r.test_type = tt → r.is_full = true) ∧
    (∀ r, m.find_available_rack tt = some r →
        r.test_type = tt ∧ r.is_full = false ∧
        (∀ r' ∈ m.destination_racks, r'.test_type = tt → r'.is_full = false →
            r'.reached_target = false →
            (r.reached_target = false ∧ r.rack_id ≤ r'.rack_id)) ∧
        (r.reached_target = true →
            ∀ r' ∈ m.destination_racks, r'.test_type = tt → r'.is_full = false →
            r.rack_id ≤ r'.rack_id)) := by
  have hpc : ∀ r : DestinationRack,
      (r.test_type == tt && !r.is_full) = true ↔
        (r.test_type = tt ∧ r.is_full = false) := by
    intro r
    simp [Bool.and_eq_true, Bool.not_eq_true']
  set cands := m.destination_racks.filter (fun r => r.test_type == tt && !r.is_full)
    with hcands
  have hsc : cands.Sorted (fun a b => a.rack_id ≤ b.rack_id) :=
    List.Pairwise.filter _ hs
  have hmemc : ∀ r : DestinationRack,
      r ∈ cands ↔ (r ∈ m.destination_racks ∧ r.test_type = tt ∧ r.is_full = false) := by
    intro r
    rw [hcands, List.mem_filter, hpc r]
  have hfar : m.find_available_rack tt =
      (if cands.isEmpty then none
       else match cands.find? (fun r => !r.reached_target) with
       | some rack => some rack
       | none => cands.head?) := by
    rw [RackSystemManager.find_available_rack, List.Sorted.insertionSort_eq hsc]
  constructor
  · cases hc : cands with
    | nil =>
      have hnone : m.find_available_rack tt = none := by
        rw [hfar, hc]
        rfl
      have hall : ∀ r ∈ m.destination_racks, r.test_type = tt → r.is_full = true := by
        intro r hr htype
        have := (List.filter_eq_nil_iff.mp (hcands ▸ hc)) r hr
        rw [hpc r] at this
        by_contra hfull
        exact this ⟨htype, Bool.eq_false_iff.mpr hfull⟩
      exact iff_of_true hnone hall
    | cons c cs =>
      have hsome : m.find_available_rack tt ≠ none := by
        rw [hfar, hc, if_neg (by simp)]
        cases hfd : (c :: cs).find? (fun r => !r.reached_target) with
        | some rack => simp
        | none => simp
      have hnall : ¬ ∀ r ∈ m.destination_racks, r.test_type = tt → r.is_full = true := by
        intro hall
        have hc' : c ∈ cands := hc ▸ List.mem_cons_self c cs
        obtain ⟨hcl, hct, hcf⟩ := (hmemc c).mp hc'
        rw [hall c hcl hct] at hcf
        cases hcf
      exact iff_of_false hsome hnall
  · intro r hfind
    rw [hfar] at hfind
    cases hc : cands with
    | nil => rw [hc] at hfind; simp at hfind
    | cons c cs =>
      rw [hc] at hfind
      rw [if_neg (by simp)] at hfind
      have hmain : r ∈ cands ∧
          ((cands.find? (fun x => !x.reached_target) = some r ∧ r.reached_target = false) ∨
           (cands.find? (fun x => !x.reached_target) = none ∧ cands.head? = some r)) := by
        cases hf : (c :: cs).find? (fun x => !x.reached_target) with
        | some rack =>
          rw [hf] at hfind
          obtain rfl : rack = r := by simpa using hfind
          refine ⟨hc ▸ List.mem_of_find?_eq_some hf, .inl ⟨hc ▸ hf, ?_⟩⟩
          have := List.find?_some hf
          simpa using this
        | none =>
          rw [hf] at hfind
          refine ⟨?_, .inr ⟨hc ▸ hf, hc ▸ hfind⟩⟩
          rw [hc]
          obtain rfl : c = r := by simpa using hfind
          exact List.mem_cons_self _ _
      obtain ⟨hrc, hcases⟩ := hmain
      obtain ⟨hrl, hrt, hrf⟩ := (hmemc r).mp hrc
      refine ⟨hrt, hrf, ?_, ?_⟩
      · intro r' hr' ht' hf' hreach'
        have hr'c : r' ∈ cands := (hmemc r').mpr ⟨hr', ht', hf'⟩
        rcases hcases with ⟨hf, hnr⟩ | ⟨hf, hh⟩
        · exact ⟨hnr, sorted_find?_le hsc hf r' hr'c (by simp [hreach'])⟩
        · exact absurd ((List.find?_eq_none.mp hf) r' hr'c (by simp [hreach']))
            (by simp)
      · intro hreach r' hr' ht' hf'
        have hr'c : r' ∈ cands := (hmemc r').mpr ⟨hr', ht', hf'⟩
        rcases hcases with ⟨hf, hnr⟩ | ⟨hf, hh⟩
        · exact absurd hreach (by simp [hnr])
        · exact sorted_head?_le hsc hh r' hr'c

/-- Witness for the amended C4 theorem on an ascending-registered manager. -/
theorem find_available_rack_ordered_spec_witness :
    mC4w.destination_racks.Sorted (fun a b => a.rack_id ≤ b.rack_id) ∧
    ((mC4w.find_available_rack TestType.UGI = none ↔
        ∀ r ∈ mC4w.destination_racks, r.test_type = TestType.UGI → r.is_full = true) ∧
     (∀ r, mC4w.find_available_rack TestType.UGI = some r →
        r.test_type = TestType.UGI ∧ r.is_full = false ∧
        (∀ r' ∈ mC4w.destination_racks, r'.test_type = TestType.UGI →
            r'.is_full = false → r'.reached_target = false →
            (r.reached_target = false ∧ r.rack_id ≤ r'.rack_id)) ∧
        (r.reached_target = true →
            ∀ r' ∈ mC4w.destination_racks, r'.test_type = TestType.UGI →
            r'.is_full = false → r.rack_id ≤ r'.rack_id))) :=
  ⟨by decide, find_available_rack_ordered_spec mC4w TestType.UGI (by decide)⟩

/-- Claim C5 counterexample.  For the combined type-class UGI_VPCH, one rack
having reached its target does NOT suffice: with rack 5 at target and rack
6 below target, check_pair_reached_target is false. -/
theorem check_pair_combined_not_single :
    (mC5.destination_racks.map (fun r => r.reached_target)) = [true, false] ∧
    mC5.check_pair_reached_target TestType.UGI_VPCH = false := by
  decide

/-- Claim C5 (amended).  Only for the OTHER class does a single rack — the
first registered rack of the class — having reached its target suffice;
for every other class, the combined UGI_VPCH class included, the predicate
is true exactly when exactly two racks of the class are registered and
both have individually reached their targets. -/
theorem check_pair_reached_target_spec (m : RackSystemManager) :
    (∀ tt, tt ≠ TestType.OTHER →
        (m.check_pair_reached_target tt = true ↔
          ((m.get_racks_by_type tt).length = 2 ∧
           ∀ r ∈ m.get_racks_by_type tt, r.reached_target = true))) ∧
    (m.check_pair_reached_target TestType.OTHER = true ↔
        ∃ r t, m.get_racks_by_type TestType.OTHER = r :: t ∧ r.reached_target = true) := by
  constructor
  · intro tt hne
    have hb : (tt == TestType.OTHER) = false := beq_eq_false_iff_ne.mpr hne
    by_cases h2 : (m.get_racks_by_type tt).length = 2
    · simp [RackSystemManager.check_pair_reached_target, hb, h2, List.all_eq_true]
    · simp [RackSystemManager.check_pair_reached_target, hb, h2]
  · cases hr : m.get_racks_by_type TestType.OTHER with
    | nil => simp [RackSystemManager.check_pair_reached_target, hr]
    | cons a t =>
      simp only [RackSystemManager.check_pair_reached_target, hr, beq_self_eq_true,
        if_true]
      constructor
      · intro h
        exact ⟨a, t, rfl, h⟩
      · rintro ⟨r, t', heq, hreach⟩
        obtain ⟨rfl, rfl⟩ := List.cons_eq_cons.mp heq
        exact hreach

/-- Witness for the amended C5 theorem at a two-rack single-test class. -/
theorem check_pair_reached_target_spec_witness :
    TestType.UGI ≠ TestType.OTHER ∧
    (mC5w.check_pair_reached_target TestType.UGI = true ↔
      ((mC5w.get_racks_by_type TestType.UGI).length = 2 ∧
       ∀ r ∈ mC5w.get_racks_by_type TestType.UGI, r.reached_target = true)) :=
  ⟨by decide, (check_pair_reached_target_spec mC5w).1 TestType.UGI (by decide)⟩

/-- Claim C6 (confirmed).  Whenever COMPLETED is never observed within the
deadline of a sort iteration, the flow returns failure with the manager —
destination-rack counts and cursors, and every tube's destination fields —
exactly as before; and whenever the flow reports success, the manager was
updated by dest_rack.add_tube followed by mark_tube_sorted on the resolved
available rack (sort_success_update). -/
theorem sort_timeout_leaves_inventory_untouched (m : RackSystemManager)
    (env : SortEnv) (tid : Nat) (h : env.completed = false) :
    (∃ w, execute_sorting_iteration m env tid = .ok (m, false, w)) ∧
    (∀ (env' : SortEnv) (m' : RackSystemManager) (w : List RegWrite),
        execute_sorting_iteration m env' tid = .ok (m', true, w) →
        ∃ rack, m.find_available_rack (tubeAt m.store tid).test_type = some rack ∧
          sort_success_update m rack tid = .ok m') := by
  constructor
  · cases hfa : m.find_available_rack (tubeAt m.store tid).test_type with
    | none =>
      exact ⟨[], by simp only [execute_sorting_iteration, hfa]⟩
    | some rack =>
      cases hrr : env.robot_ready with
      | false =>
        exact ⟨[], by simp only [execute_sorting_iteration, hfa, hrr]; rfl⟩
      | true =>
        refine ⟨_, by simp only [execute_sorting_iteration, hfa, hrr, h]; rfl⟩
  · intro env' m' w hok
    simp only [execute_sorting_iteration] at hok
    cases hfa : m.find_available_rack (tubeAt m.store tid).test_type with
    | none =>
      rw [hfa] at hok
      simp at hok
    | some rack =>
      rw [hfa] at hok
      cases hrr : env'.robot_ready with
      | false =>
        simp [hrr] at hok
      | true =>
        cases hcc : env'.completed with
        | false =>
          simp [hrr, hcc] at hok
        | true =>
          cases hsu : sort_success_update m rack tid with
          | error e =>
            simp [hrr, hcc, hsu] at hok
          | ok m2 =>
            simp [hrr, hcc, hsu] at hok
            exact ⟨rack, rfl, hok.1 ▸ hsu⟩

/-- Witness for C6: a sort iteration on mC7 whose COMPLETED wait times out. -/
theorem sort_timeout_leaves_inventory_untouched_witness :
    (⟨true, false⟩ : SortEnv).completed = false ∧
    ((∃ w, execute_sorting_iteration mC7 ⟨true, false⟩ 0 = .ok (mC7, false, w)) ∧
     (∀ (env' : SortEnv) (m' : RackSystemManager) (w : List RegWrite),
        execute_sorting_iteration mC7 env' 0 = .ok (m', true, w) →
        ∃ rack, mC7.find_available_rack (tubeAt mC7.store 0).test_type = some rack ∧
          sort_success_update mC7 rack 0 = .ok m')) :=
  ⟨rfl, sort_timeout_leaves_inventory_untouched mC7 ⟨true, false⟩ 0 rfl⟩

/-- Claim C7 (code bug).  The engine itself writes READY (0) into the
iteration-starter register R[1] at the end of every kind of iteration: the
scan flow, the sort flow and the exit from waiting mode each contain the
write, although the protocol (robot_protocol.py 15-16) states the robot
alone resets R[1] and Python must not. -/
theorem engine_resets_iteration_starter :
    RegWrite.num NR.iteration_starter NR_VAL.ready
        ∈ (scan_position_group scanEnvC7 0 0 0 3).2 ∧
    RegWrite.num NR.iteration_starter NR_VAL.ready ∈ sortWritesC7 ∧
    RegWrite.num NR.iteration_starter NR_VAL.ready ∈ exit_waiting_mode true := by
  decide

/-- Claim C8 (confirmed).  After any sequence of add_tube, reset and
set_target calls on a freshly constructed rack whose initial target is in
range, the held-tube count is at most the hard maximum, the next-free-slot
cursor equals the count, the target stays within range, and the assigned
destination slots are exactly 0,1,...,count-1 in order — sequential, no
gaps, no reuse. -/
theorem destination_rack_invariants (rack_id : Nat) (tt : TestType)
    (target0 : Nat) (h : target0 ≤ MAX_TUBES) (ops : List DestOp) :
    (run_dest_ops rack_id tt target0 ops).2.tubes.length ≤ MAX_TUBES ∧
    (run_dest_ops rack_id tt target0 ops).2.next_number =
      (run_dest_ops rack_id tt target0 ops).2.tubes.length ∧
    (run_dest_ops rack_id tt target0 ops).2.target ≤ MAX_TUBES ∧
    destNumbers (run_dest_ops rack_id tt target0 ops).1
        (run_dest_ops rack_id tt target0 ops).2 =
      (List.range (run_dest_ops rack_id tt target0 ops).2.tubes.length).map some := by
  have h0 : DestInv ([] : TubeStore) (DestinationRack.init rack_id tt target0) :=
    ⟨by simp [DestinationRack.init, MAX_TUBES], rfl, h,
      by simp [DestinationRack.init], by simp [DestinationRack.init, destNumbers]⟩
  obtain ⟨h1, h2, h3, -, h5⟩ :=
    dest_inv_run ops ([], DestinationRack.init rack_id tt target0) h0
  exact ⟨h1, h2, h3, h5⟩

/-- Witness for C8: a concrete add/set_target/reset/add sequence. -/
theorem destination_rack_invariants_witness :
    50 ≤ MAX_TUBES ∧
    ((run_dest_ops 3 TestType.UGI 50
        [DestOp.addTube ⟨"W8", 0, 0, .UGI, none, none⟩, DestOp.setTarget 10,
         DestOp.reset, DestOp.addTube ⟨"W8b", 0, 1, .UGI, none, none⟩]).2.tubes.length
        ≤ MAX_TUBES ∧
     (run_dest_ops 3 TestType.UGI 50
        [DestOp.addTube ⟨"W8", 0, 0, .UGI, none, none⟩, DestOp.setTarget 10,
         DestOp.reset, DestOp.addTube ⟨"W8b", 0, 1, .UGI, none, none⟩]).2.next_number =
      (run_dest_ops 3 TestType.UGI 50
        [DestOp.addTube ⟨"W8", 0, 0, .UGI, none, none⟩, DestOp.setTarget 10,
         DestOp.reset, DestOp.addTube ⟨"W8b", 0, 1, .UGI, none, none⟩]).2.tubes.length ∧
     (run_dest_ops 3 TestType.UGI 50
        [DestOp.addTube ⟨"W8", 0, 0, .UGI, none, none⟩, DestOp.setTarget 10,
         DestOp.reset, DestOp.addTube ⟨"W8b", 0, 1, .UGI, none, none⟩]).2.target
        ≤ MAX_TUBES ∧
     destNumbers (run_dest_ops 3 TestType.UGI 50
        [DestOp.addTube ⟨"W8", 0, 0, .UGI, none, none⟩, DestOp.setTarget 10,
         DestOp.reset, DestOp.addTube ⟨"W8b", 0, 1, .UGI, none, none⟩]).1
        (run_dest_ops 3 TestType.UGI 50
        [DestOp.addTube ⟨"W8", 0, 0, .UGI, none, none⟩, DestOp.setTarget 10,
         DestOp.reset, DestOp.addTube ⟨"W8b", 0, 1, .UGI, none, none⟩]).2 =
      (List.range (run_dest_ops 3 TestType.UGI 50
        [DestOp.addTube ⟨"W8", 0, 0, .UGI, none, none⟩, DestOp.setTarget 10,
         DestOp.reset, DestOp.addTube ⟨"W8b", 0, 1, .UGI, none, none⟩]).2.tubes.length).map
        some) :=
  ⟨by decide, destination_rack_invariants 3 TestType.UGI 50 (by decide)
    [DestOp.addTube ⟨"W8", 0, 0, .UGI, none, none⟩, DestOp.setTarget 10,
     DestOp.reset, DestOp.addTube ⟨"W8b", 0, 1, .UGI, none, none⟩]⟩

/-- Claim C9 counterexample.  Adding a second tube object carrying a barcode
already present in pallet 0 leaves the manager unchanged and logs, but the
call returns TRUE to the caller, not false: the silent duplicate return of
SourceRack.add_scanned_tube is converted to success by the manager. -/
theorem duplicate_scan_returns_true :
    mC9.add_scanned_tube 0 1 = (mC9, true) := by
  decide

/-- Claim C9 (amended).  RackSystemManager.add_scanned_tube returns false
exactly in the unknown-pallet and foreign-tube (ValueError) cases; a
duplicate barcode leaves the pallet unchanged but still returns TRUE, and a
fresh tube is appended with TRUE.  (Pallet ids are assumed distinct, as
they are the keys of the manager's Python dict.) -/
theorem add_scanned_tube_result_spec (m : RackSystemManager) (pid : Nat)
    (tid : Nat)
    (hnd : (m.source_pallets.map (fun p => p.rack_id)).Nodup) :
    (m.get_source_pallet pid = none → m.add_scanned_tube pid tid = (m, false)) ∧
    (∀ p, m.get_source_pallet pid = some p →
        (tubeAt m.store tid).source_rack ≠ p.rack_id →
        m.add_scanned_tube pid tid = (m, false)) ∧
    (∀ p, m.get_source_pallet pid = some p →
        (tubeAt m.store tid).source_rack = p.rack_id →
        has_barcode m.store p.tubes (tubeAt m.store tid).barcode = true →
        m.add_scanned_tube pid tid = (m, true)) ∧
    (∀ p, m.get_source_pallet pid = some p →
        (tubeAt m.store tid).source_rack = p.rack_id →
        has_barcode m.store p.tubes (tubeAt m.store tid).barcode = false →
        m.add_scanned_tube pid tid =
          (m.setPallet pid { p with tubes := p.tubes ++ [tid] }, true)) := by
  refine ⟨?_, ?_, ?_, ?_⟩
  · intro hf
    simp [RackSystemManager.add_scanned_tube, hf]
  · intro p hf hsrc
    simp [RackSystemManager.add_scanned_tube, hf,
      SourceRack.add_scanned_tube, hsrc]
  · intro p hf hsrc hdup
    have hmap : m.source_pallets.map (fun q => if q.rack_id == pid then p else q)
        = m.source_pallets := setPallet_found_self hnd hf
    simp only [RackSystemManager.add_scanned_tube, hf,
      SourceRack.add_scanned_tube, hsrc, ne_eq, not_true_eq_false, if_false,
      hdup, if_true, RackSystemManager.setPallet, hmap]
  · intro p hf hsrc hdup
    simp only [RackSystemManager.add_scanned_tube, hf,
      SourceRack.add_scanned_tube, hsrc, ne_eq, not_true_eq_false, if_false,
      hdup, Bool.false_eq_true]

/-- Witness for the amended C9 theorem: the duplicate-scan case on mC9. -/
theorem add_scanned_tube_result_spec_witness :
    (mC9.source_pallets.map (fun p => p.rack_id)).Nodup ∧
    mC9.get_source_pallet 0 = some ⟨0, [0], 0⟩ ∧
    (tubeAt mC9.store 1).source_rack = (⟨0, [0], 0⟩ : SourceRack).rack_id ∧
    has_barcode mC9.store (⟨0, [0], 0⟩ : SourceRack).tubes
      (tubeAt mC9.store 1).barcode = true ∧
    mC9.add_scanned_tube 0 1 = (mC9, true) :=
  ⟨by decide, by decide, by decide, by decide,
    (add_scanned_tube_result_spec mC9 0 1 (by decide)).2.2.1 ⟨0, [0], 0⟩
      (by decide) (by decide) (by decide)⟩

/-- Claim C10 (confirmed, with get_next_position modelled from the spec).
Sorting the TypeX tube of pallet 0 slot 5 when the only rack of its type is
rack 3 with count 10 and target 50 writes exactly the movement payload
"00 05 03 10" to the movement-data string register, reports success, and
afterwards rack 3 holds 11 tubes with cursor 11 while the tube's
destination_rack is 3 and destination_number is 10. -/
theorem sort_scenario_end_to_end :
    sortResultC10.toOption.map (fun x => x.2.2) =
      some [.str SR.movement_data "00 05 03 10",
            .str SR.iteration_type "SORTING_ITERATION",
            .num NR.iteration_starter NR_VAL.ready,
            .str SR.iteration_type "NONE"] ∧
    sortResultC10.toOption.map (fun x => x.2.1) = some true ∧
    sortResultC10.toOption.map (fun x => x.1.destination_racks.map
      (fun r => (r.tubes.length, r.next_number))) = some [(11, 11)] ∧
    sortResultC10.toOption.map (fun x =>
      ((tubeAt x.1.store 0).destination_rack, (tubeAt x.1.store 0).destination_number))
      = some (some 3, some 10) := by
  decide

end EppendorfSorter
